import Mathlib

set_option autoImplicit false

/-! Shallow embedding of src/Source/Main.cpp (loop4r_leds).

The embedding covers the stateful core of class loop4r_ledsApplication:
the OSC branch of timerCallback (source lines 197-249), tryToConnectOsc
and connect, the four inbound OSC message handlers, and the two pedal
index maps.  C++ int fields become Int; uint8 return values and the
unsigned char bytes of a MIDI frame are reduced mod 256.  Outbound OSC
sends and hardware writes are collected into lists; a 3-byte frame
{MIDI_CMD_CONTROL, cc, value} is recorded as the pair (cc, value),
eliding the constant leading opcode byte.  Reads past the end of an OSC
argument array and JUCE getReference calls with an out-of-range index
are undefined behaviour in the source; the embedding models the former
as a failed isInt32 test and the latter as a no-op, and the theorems
below stay inside defined behaviour.
-/

-- enum LedStates, an unscoped C++ enum with underlying int values
def Dark : Int := 0
def Light : Int := 1
def Blink : Int := 2
def FastBlink : Int := 3

def NUM_LED_PEDALS : Int := 10
def UP : Int := 10
def DOWN : Int := 11

def TIMER_OFF : Int := 0
def TIMER_FASTBLINK : Int := 1
def TIMER_BLINK : Int := 3

/-- struct LED -/
structure LED where
  index_ : Int
  on_ : Bool
  timer_ : Int
  state_ : Int
deriving DecidableEq

/-- the aggregate {i, false, TIMER_OFF, Dark} used at every creation site -/
def freshLed (i : Int) : LED := ⟨i, false, TIMER_OFF, Dark⟩

/-- an OSC argument as seen through the isInt32 / isString type tests -/
inductive OSCArg
| int32 (v : Int)
| string (v : String)
| float32
| blob
deriving DecidableEq

/-- outbound OSC sends, identified by address pattern and reply pattern -/
inductive OscOut
| pingHeartbeat  -- send of /loop4r/ping with reply pattern /heartbeat
| pingAck        -- send of /loop4r/ping with reply pattern /pingack
| registerAuto   -- send of /loop4r/register_auto_update
| unregisterAuto -- send of /loop4r/unregister_auto_update
| reqLeds        -- send of /loop4r/leds with reply pattern /led
| reqDisplay     -- send of /loop4r/display with reply pattern /display
deriving DecidableEq

/-- one 3-byte control-change frame {MIDI_CMD_CONTROL, cc, value}; the
constant opcode byte is elided -/
structure HwWrite where
  cc : Int
  value : Int
deriving DecidableEq

/-- the mutable fields of loop4r_ledsApplication that the core touches -/
structure AppState where
  currentReceivePort_ : Int
  currentSendPort_ : Int
  oscSendPort_ : Int
  oscReceivePort_ : Int
  engineId_ : Int
  ledCount_ : Int
  leds_ : List LED
  heartbeat_ : Int
  heartbeatOn_ : Bool
  pinged_ : Bool
  hostUrl_ : String
  version_ : String
deriving DecidableEq

/-- uint8 ledNumber(int pedalIdx): decimal pedal wiring of the FCB1010;
the default branch truncates to the uint8 return type -/
def ledNumber (pedalIdx : Int) : Int :=
  if 0 ≤ pedalIdx ∧ pedalIdx ≤ 8 then pedalIdx + 1
  else if pedalIdx = 9 then 0
  else pedalIdx % 256

/-- int pedalIndex(int controllerValue) -/
def pedalIndex (controllerValue : Int) : Int :=
  if 1 ≤ controllerValue ∧ controllerValue ≤ 9 then controllerValue - 1
  else if controllerValue = 0 then 9
  else if controllerValue = 10 then UP
  else if controllerValue = 11 then DOWN
  else controllerValue

/-- updateLedState(LED&): one frame, cc 106 when on else cc 107 -/
def updateLedStateWrite (led : LED) : HwWrite :=
  ⟨if led.on_ then 106 else 107, ledNumber led.index_⟩

/-- updateLeds(): updateLedState for every led in order -/
def updateLedsWrites (leds : List LED) : List HwWrite :=
  leds.map updateLedStateWrite

/-- positional read, like indexing into the JUCE Array -/
def nth? {α : Type} : List α → Nat → Option α
| [], _ => none
| x :: _, 0 => some x
| _ :: xs, n+1 => nth? xs n

/-- positional in-place update; an out-of-range position leaves the list
unchanged (the source would be undefined behaviour there) -/
def modifyAt {α : Type} (f : α → α) : Nat → List α → List α
| _, [] => []
| 0, x :: xs => f x :: xs
| n+1, x :: xs => x :: modifyAt f n xs

/-- the store through leds_.getReference(i).on_ done by ledOn / ledOff;
a negative or out-of-range index is undefined behaviour in the source
(JUCE assertion), modelled as a no-op -/
def setOnByIndex (leds : List LED) (i : Int) (v : Bool) : List LED :=
  if i < 0 then leds else modifyAt (fun l => {l with on_ := v}) i.toNat leds

/-- the range-for over leds_ at the end of timerCallback.  pos is the
loop position and fuel the number of remaining elements.  The on_ flip
goes through leds_.getReference(led.index_) inside ledOn / ledOff, while
both timer_ stores go through the loop reference at position pos; the
two coincide only when index_ equals the position. -/
def animLoop : Nat → Nat → List LED → List LED × List HwWrite
| 0, _, leds => (leds, [])
| fuel+1, pos, leds =>
  match nth? leds pos with
  | none => (leds, [])
  | some led =>
    if led.state_ = Blink ∨ led.state_ = FastBlink then
      if led.timer_ ≤ 0 then
        let w : HwWrite := ⟨if led.on_ then 107 else 106, ledNumber led.index_⟩
        let leds1 := setOnByIndex leds led.index_ (!led.on_)
        let leds2 := modifyAt
          (fun l => {l with timer_ := if led.state_ = Blink then TIMER_BLINK else TIMER_FASTBLINK})
          pos leds1
        let r := animLoop fuel (pos+1) leds2
        (r.1, w :: r.2)
      else
        animLoop fuel (pos+1) (modifyAt (fun l => {l with timer_ := l.timer_ - 1}) pos leds)
    else
      animLoop fuel (pos+1) leds

/-- the whole blink-animation pass of one timerCallback -/
def animate (leds : List LED) : List LED × List HwWrite :=
  animLoop leds.length 0 leds

/-- outcome of the transport operations attempted this tick: whether
oscSender.connect and oscReceiver.connect would succeed -/
structure ConnectEnv where
  sendOk : Bool
  recvOk : Bool
deriving DecidableEq

/-- bool isValidOscPort(int) -/
def isValidOscPort (port : Int) : Bool :=
  decide (0 < port ∧ port < 65536)

/-- connect(): binds the receive endpoint at oscReceivePort_ when the
port is valid and the transport bind succeeds -/
def connectRecv (env : ConnectEnv) (s : AppState) : AppState :=
  if ¬ isValidOscPort s.oscReceivePort_ then s
  else if env.recvOk then {s with currentReceivePort_ := s.oscReceivePort_} else s

/-- bool tryToConnectOsc(): returns the new state, the OSC sends, and
the C++ return value -/
def tryToConnectOsc (env : ConnectEnv) (s : AppState) :
    AppState × List OscOut × Bool :=
  let s1 := if s.currentSendPort_ < 0 then
      (if env.sendOk then {s with currentSendPort_ := s.oscSendPort_} else s)
    else s
  let s2 := if s1.currentReceivePort_ < 0 then connectRecv env s1 else s1
  if 0 < s2.currentSendPort_ ∧ 0 < s2.currentReceivePort_ then
    (s2, if ¬ s2.pinged_ then [OscOut.pingAck] else [], true)
  else (s2, [], false)

/-- timerCallback, source lines 197-249: the OSC connection bookkeeping
and the led animation.  The lazy MIDI device open of lines 181-194 is
independent of the OSC state and outside every claim, so it is not part
of this tick. -/
def tick (env : ConnectEnv) (s : AppState) :
    AppState × List OscOut × List HwWrite :=
  if s.currentReceivePort_ < 0 ∨ s.currentSendPort_ < 0 then
    let r := tryToConnectOsc env s
    (if r.2.2 then {r.1 with heartbeat_ := 5} else r.1, r.2.1, [])
  else
    let hb : AppState × List OscOut :=
      if s.heartbeat_ = 0 then (s, [OscOut.pingHeartbeat])
      else if s.heartbeat_ < -5 then
        let r := tryToConnectOsc env
          {s with currentReceivePort_ := -1, currentSendPort_ := -1}
        (if r.2.2 then {r.1 with heartbeat_ := 5} else r.1, r.2.1)
      else ({s with heartbeat_ := s.heartbeat_ - 1}, [])
    let anim := animate hb.1.leds_
    ({hb.1 with leds_ := anim.1}, hb.2, anim.2)

/-- n consecutive ticks with no inbound messages -/
def tickN (env : ConnectEnv) : Nat → AppState → AppState
| 0, s => s
| n+1, s => tickN env n (tick env s).1

/-- the argument loop of handlePingAckMessage; the Bool records whether
the default case (a fifth argument) took the early return out of the
handler -/
def pingAckLoop : List OSCArg → Nat → AppState → AppState × Bool
| [], _, s => (s, false)
| a :: rest, 0, s =>
  pingAckLoop rest 1 (match a with | .string v => {s with hostUrl_ := v} | _ => s)
| a :: rest, 1, s =>
  pingAckLoop rest 2 (match a with | .string v => {s with version_ := v} | _ => s)
| a :: rest, 2, s =>
  pingAckLoop rest 3 (match a with | .int32 v => {s with ledCount_ := v} | _ => s)
| a :: rest, 3, s =>
  pingAckLoop rest 4 (match a with | .int32 v => {s with engineId_ := v} | _ => s)
| _ :: _, _+4, s => (s, true)

/-- the registry rebuild loop shared by handlePingAckMessage and the
changed-identity branch of handleHeartbeatMessage: for each i in
[start, start+n) add a fresh led, send register_auto_update, send the
two current-state requests of getCurrentState, then run updateLeds over
the registry grown so far -/
def rebuildLoop : Nat → Int → List LED → List LED × List OscOut × List HwWrite
| 0, _, acc => (acc, [], [])
| n+1, i, acc =>
  let acc1 := acc ++ [freshLed i]
  let r := rebuildLoop n (i+1) acc1
  (r.1, OscOut.registerAuto :: OscOut.reqLeds :: OscOut.reqDisplay :: r.2.1,
   updateLedsWrites acc1 ++ r.2.2)

/-- void handlePingAckMessage(const OSCMessage&) -/
def handlePingAckMessage (args : List OSCArg) (s : AppState) :
    AppState × List OscOut × List HwWrite :=
  if args = [] then (s, [], [])
  else
    let p := pingAckLoop args 0 s
    if p.2 then (p.1, [], [])
    else if 0 < p.1.ledCount_ then
      let r := rebuildLoop p.1.ledCount_.toNat 0 []
      ({p.1 with leds_ := r.1, heartbeat_ := 5}, r.2.1, r.2.2)
    else ({p.1 with heartbeat_ := 5}, [], [])

/-- the argument loop of handleHeartbeatMessage; numleds and uid are the
locals of the handler, and the default case only logs and keeps going -/
def heartbeatLoop :
    List OSCArg → Nat → AppState → Int → Int → AppState × Int × Int
| [], _, s, numleds, uid => (s, numleds, uid)
| a :: rest, 0, s, numleds, uid =>
  heartbeatLoop rest 1
    (match a with | .string v => {s with hostUrl_ := v} | _ => s) numleds uid
| a :: rest, 1, s, numleds, uid =>
  heartbeatLoop rest 2
    (match a with | .string v => {s with version_ := v} | _ => s) numleds uid
| a :: rest, 2, s, numleds, uid =>
  heartbeatLoop rest 3 s (match a with | .int32 v => v | _ => numleds) uid
| a :: rest, 3, s, numleds, uid =>
  heartbeatLoop rest 4 s numleds (match a with | .int32 v => v | _ => uid)
| _ :: rest, n+4, s, numleds, uid =>
  heartbeatLoop rest (n+5) s numleds uid

/-- the grow loop of the matching-identity branch: for i in
[ledCount_, numleds) send register_auto_update, append a fresh led, and
run updateLeds over the registry grown so far (no getCurrentState here) -/
def growLoop : Nat → Int → List LED → List LED × List OscOut × List HwWrite
| 0, _, acc => (acc, [], [])
| n+1, i, acc =>
  let acc1 := acc ++ [freshLed i]
  let r := growLoop n (i+1) acc1
  (r.1, OscOut.registerAuto :: r.2.1, updateLedsWrites acc1 ++ r.2.2)

/-- void handleHeartbeatMessage(const OSCMessage&); note that the
changed-identity branch never stores uid into engineId_ -/
def handleHeartbeatMessage (args : List OSCArg) (s : AppState) :
    AppState × List OscOut × List HwWrite :=
  if args = [] then (s, [], [])
  else
    let p := heartbeatLoop args 0 s 0 s.engineId_
    let numleds := p.2.1
    let uid := p.2.2
    let core : AppState × List OscOut × List HwWrite :=
      if uid ≠ p.1.engineId_ then
        if 0 < numleds then
          let r := rebuildLoop numleds.toNat 0 []
          ({p.1 with ledCount_ := numleds, leds_ := r.1}, r.2.1, r.2.2)
        else (p.1, [], [])
      else
        if p.1.ledCount_ ≠ numleds then
          let r := growLoop (numleds - p.1.ledCount_).toNat p.1.ledCount_ p.1.leds_
          ({p.1 with leds_ := r.1, ledCount_ := numleds}, r.2.1, r.2.2)
        else (p.1, [], [])
    ({core.1 with heartbeatOn_ := !core.1.heartbeatOn_, heartbeat_ := 5},
     core.2.1,
     core.2.2 ++ [⟨if core.1.heartbeatOn_ then 107 else 106, 23⟩])

/-- void handleLedMessage(const OSCMessage&); the source walks the
argument array through a raw pointer with no bounds check, so a read
past the last argument is undefined behaviour, modelled here as a
failed isInt32 test -/
def handleLedMessage : List OSCArg → AppState → AppState × List HwWrite
| [], s => (s, [])
| OSCArg.int32 ledIndex :: rest, s =>
      if ledIndex < 0 ∨ s.ledCount_ ≤ ledIndex then (s, [])
      else
        match nth? rest 0 with
        | some (.int32 onv) =>
          let ledsA := modifyAt
            (fun l => {l with on_ := if onv = 0 then false else true})
            ledIndex.toNat s.leds_
          let s1 := {s with leds_ := ledsA}
          match nth? rest 1 with
          | some (.int32 tv) =>
            let ledsB := modifyAt (fun l => {l with timer_ := tv})
              ledIndex.toNat s1.leds_
            let s2 := {s1 with leds_ := ledsB}
            match nth? rest 2 with
            | some (.int32 sv) =>
              let ledsC := modifyAt (fun l => {l with state_ := sv})
                ledIndex.toNat s2.leds_
              let s3 := {s2 with leds_ := ledsC}
              let led := (nth? s3.leds_ ledIndex.toNat).getD (freshLed 0)
              ({s3 with heartbeat_ := 5}, [updateLedStateWrite led])
            | _ => (s2, [])
          | _ => (s1, [])
        | _ => (s, [])
| _ :: _, s => (s, [])

/-- void handleDisplayMessage(const OSCMessage&); C++ int division
truncates toward zero, and the frame bytes are unsigned char, hence the
reductions mod 256.  The handler stores nothing: the state is returned
untouched. -/
def handleDisplayMessage : List OSCArg → AppState → AppState × List HwWrite
| [], s => (s, [])
| OSCArg.int32 v :: _, s =>
      let selectedLoop := v + 1
      let tens : HwWrite :=
        if 0 < selectedLoop.tdiv 10 then ⟨113, (selectedLoop.tdiv 10) % 256⟩
        else ⟨113, 0⟩
      (s, [tens, ⟨114, (selectedLoop.tmod 10) % 256⟩])
| _ :: _, s => (s, [])

/-! Derived notions used to state the claims. -/

/-- the effect of one animation pass on a single led whose index_ field
equals its position in the registry -/
def stepLed (led : LED) : LED :=
  if led.state_ = Blink ∨ led.state_ = FastBlink then
    if led.timer_ ≤ 0 then
      {led with on_ := !led.on_,
                timer_ := if led.state_ = Blink then TIMER_BLINK else TIMER_FASTBLINK}
    else {led with timer_ := led.timer_ - 1}
  else led

/-- the hardware writes of one animation pass for a single such led -/
def stepLedWrites (led : LED) : List HwWrite :=
  if (led.state_ = Blink ∨ led.state_ = FastBlink) ∧ led.timer_ ≤ 0 then
    [⟨if led.on_ then 107 else 106, ledNumber led.index_⟩]
  else []

def stepWrites : List LED → List HwWrite
| [] => []
| l :: ls => stepLedWrites l ++ stepWrites ls

/-- n animation passes on a single led -/
def stepLedN : Nat → LED → LED
| 0, l => l
| n+1, l => stepLedN n (stepLed l)

/-- every led of the list carries the index of its own position, offset
by the first argument -/
def wellIndexedFrom : Int → List LED → Bool
| _, [] => true
| i, l :: ls => decide (l.index_ = i) && wellIndexedFrom (i+1) ls

/-- every led of the registry carries the index of its own position;
this holds for every registry the constructor and the handlers build -/
def WellIndexed (leds : List LED) : Prop := wellIndexedFrom 0 leds = true

/-- how many per-slot resync requests (register_auto_update sends) a
batch of outbound messages contains -/
def resyncRequests (outs : List OscOut) : Nat :=
  (outs.filter (fun o => decide (o = OscOut.registerAuto))).length

/-! Concrete states for the closed examples. -/

/-- the registry built in the application constructor: ten cleared leds -/
def initialLeds : List LED := (List.range 10).map (fun i => freshLed (i : Int))

/-- process state after the constructor; engineId_, ledCount_, pinged_
and heartbeat_ are uninitialized in the source and get concrete values
here -/
def baseState : AppState :=
  ⟨-1, -1, 9000, 9001, 0, 0, initialLeds, 0, false, false, (r""), (r"")⟩

/-- the state right after a fresh successful connect: both ports bound
and the liveness countdown set to 5 -/
def freshConnected : AppState :=
  {baseState with currentReceivePort_ := 9001, currentSendPort_ := 9000,
                  heartbeat_ := 5}

/-- an environment where neither transport connect succeeds -/
def noConnectEnv : ConnectEnv := ⟨false, false⟩

/-- bool isInt32() of an argument -/
def isInt32 : OSCArg → Bool
| .int32 _ => true
| _ => false

/-- a connected state tracking two leds -/
def cState5 : AppState :=
  {freshConnected with ledCount_ := 2, leds_ := [freshLed 0, freshLed 1]}

/-- a connected state tracking one led for engine 1 -/
def cState3 : AppState :=
  {freshConnected with engineId_ := 1, ledCount_ := 1, leds_ := [freshLed 0]}

/-- a connected state tracking three leds, one of them blinking -/
def cState9 : AppState :=
  {freshConnected with ledCount_ := 3, leds_ := [⟨0, false, 0, Dark⟩, ⟨1, true, 2, Blink⟩, ⟨2, false, 1, FastBlink⟩]}

/-- a connected state with one FastBlink led that has just toggled -/
def cLedsFast : AppState :=
  {freshConnected with ledCount_ := 1, leds_ := [⟨0, false, 1, FastBlink⟩]}

/-- a connected state with one Blink led that has just toggled -/
def cLedsBlink : AppState :=
  {freshConnected with ledCount_ := 1, leds_ := [⟨0, false, 3, Blink⟩]}

/-! Helper lemmas. -/

lemma nth_append_mid {α : Type} (front rest : List α) (x : α) :
    nth? (front ++ x :: rest) front.length = some x := by
  induction front with
  | nil => rfl
  | cons a fr ih => exact ih

lemma modifyAt_append_mid {α : Type} (f : α → α) (front rest : List α) (x : α) :
    modifyAt f front.length (front ++ x :: rest) = front ++ f x :: rest := by
  induction front with
  | nil => rfl
  | cons a fr ih => simpa [modifyAt] using ih

lemma toNat_cast (n : Nat) : ((n : Int)).toNat = n := by omega

lemma wellIndexedFrom_cons {i : Int} {l : LED} {ls : List LED} :
    wellIndexedFrom i (l :: ls) = true
      ↔ l.index_ = i ∧ wellIndexedFrom (i+1) ls = true := by
  simp [wellIndexedFrom]

lemma animLoop_spec (back : List LED) : ∀ front : List LED,
    wellIndexedFrom (front.length : Int) back = true →
    animLoop back.length front.length (front ++ back)
      = (front ++ back.map stepLed, stepWrites back) := by
  induction back with
  | nil => intro front _; simp [animLoop, stepWrites]
  | cons led rest ih =>
    intro front h
    rw [wellIndexedFrom_cons] at h
    obtain ⟨h1, h2⟩ := h
    have hnth : nth? (front ++ led :: rest) front.length = some led :=
      nth_append_mid front rest led
    have hlen1 : wellIndexedFrom (((front.length + 1 : Nat) : Int)) rest = true := by
      push_cast
      exact h2
    by_cases hstate : led.state_ = Blink ∨ led.state_ = FastBlink
    · by_cases htimer : led.timer_ ≤ 0
      · have hneg : ¬(led.index_ < 0) := by omega
        have hset : setOnByIndex (front ++ led :: rest) led.index_ (!led.on_)
            = front ++ ({led with on_ := !led.on_} : LED) :: rest := by
          simp only [setOnByIndex, h1, toNat_cast]
          rw [if_neg (show ¬((front.length : Int) < 0) by omega), ← h1]
          exact modifyAt_append_mid _ front rest led
        have hone : stepLed led = {led with on_ := !led.on_, timer_ := (if led.state_ = Blink then TIMER_BLINK else TIMER_FASTBLINK)} := by
          simp only [stepLed, if_pos hstate, if_pos htimer]
        have hmod : modifyAt (fun l => {l with timer_ := if led.state_ = Blink then TIMER_BLINK else TIMER_FASTBLINK}) front.length (front ++ ({led with on_ := !led.on_} : LED) :: rest) = front ++ stepLed led :: rest := by
          rw [modifyAt_append_mid, hone]
        have hw : stepLedWrites led
            = [⟨if led.on_ then 107 else 106, ledNumber led.index_⟩] := by
          simp only [stepLedWrites, if_pos (And.intro hstate htimer)]
        have hIH := ih (front ++ [stepLed led]) (by simpa using hlen1)
        simp only [List.length_append, List.length_singleton, List.append_assoc,
          List.singleton_append] at hIH
        simp only [List.length_cons, animLoop, hnth]
        rw [if_pos hstate, if_pos htimer, hset, hmod, hIH]
        simp [stepWrites, hw]
      · have hone : stepLed led = {led with timer_ := led.timer_ - 1} := by
          simp only [stepLed, if_pos hstate, if_neg htimer]
        have hmod : modifyAt (fun l => {l with timer_ := l.timer_ - 1})
            front.length (front ++ led :: rest) = front ++ stepLed led :: rest := by
          rw [modifyAt_append_mid, hone]
        have hw : stepLedWrites led = [] := by
          simp only [stepLedWrites]
          rw [if_neg]
          intro hcon
          exact htimer hcon.2
        have hIH := ih (front ++ [stepLed led]) (by simpa using hlen1)
        simp only [List.length_append, List.length_singleton, List.append_assoc,
          List.singleton_append] at hIH
        simp only [List.length_cons, animLoop, hnth]
        rw [if_pos hstate, if_neg htimer, hmod, hIH]
        simp [stepWrites, hw]
    · have hstep : stepLed led = led := by simp only [stepLed, if_neg hstate]
      have hw : stepLedWrites led = [] := by
        simp only [stepLedWrites]
        rw [if_neg]
        intro hcon
        exact hstate hcon.1
      have hIH := ih (front ++ [led]) (by simpa using hlen1)
      simp only [List.length_append, List.length_singleton, List.append_assoc,
        List.singleton_append] at hIH
      simp only [List.length_cons, animLoop, hnth]
      rw [if_neg hstate, hIH]
      simp [stepWrites, hw, hstep]

lemma animate_spec {leds : List LED} (h : WellIndexed leds) :
    animate leds = (leds.map stepLed, stepWrites leds) := by
  have := animLoop_spec leds [] (by simpa using h)
  simpa [animate] using this

lemma tryToConnectOsc_frame (env : ConnectEnv) (s : AppState) :
    (tryToConnectOsc env s).1.leds_ = s.leds_
    ∧ (tryToConnectOsc env s).1.heartbeat_ = s.heartbeat_
    ∧ OscOut.pingHeartbeat ∉ (tryToConnectOsc env s).2.1 := by
  simp only [tryToConnectOsc, connectRecv]
  split_ifs <;> simp

lemma tick_connected (env : ConnectEnv) (s : AppState)
    (h : ¬(s.currentReceivePort_ < 0 ∨ s.currentSendPort_ < 0)) :
    (tick env s).1.leds_ = (animate s.leds_).1
    ∧ (tick env s).2.2 = (animate s.leds_).2 := by
  unfold tick
  rw [if_neg h]
  by_cases h0 : s.heartbeat_ = 0
  · simp [h0]
  · by_cases h5 : s.heartbeat_ < -5
    · have hf := tryToConnectOsc_frame env
        {s with currentReceivePort_ := -1, currentSendPort_ := -1}
      by_cases hok :
          (tryToConnectOsc env
            {s with currentReceivePort_ := -1, currentSendPort_ := -1}).2.2
      · simp only [h0, h5, hok, if_true, if_false, ite_true, ite_false, if_neg h0, if_pos h5]
        simp [hf.1]
      · simp only [if_neg h0, if_pos h5, hok]
        simp [hf.1]
    · simp [h0, h5]

lemma tick_unbound (env : ConnectEnv) (s : AppState)
    (h : s.currentReceivePort_ < 0 ∨ s.currentSendPort_ < 0) :
    (tick env s).1.leds_ = s.leds_
    ∧ (tick env s).2.2 = ([] : List HwWrite)
    ∧ OscOut.pingHeartbeat ∉ (tick env s).2.1 := by
  unfold tick
  rw [if_pos h]
  have hf := tryToConnectOsc_frame env s
  by_cases hok : (tryToConnectOsc env s).2.2 <;>
    simp [hok, hf.1, hf.2.2]

lemma handleLed_out_of_range (s : AppState) (idx : Int) (rest : List OSCArg)
    (h : idx < 0 ∨ s.ledCount_ ≤ idx) :
    handleLedMessage (OSCArg.int32 idx :: rest) s = (s, []) := by
  simp only [handleLedMessage]
  rw [if_pos h]

lemma pingAckLoop_no_early : ∀ (args : List OSCArg) (i : Nat) (s : AppState),
    args.length + i ≤ 4 → (pingAckLoop args i s).2 = false := by
  intro args
  induction args with
  | nil => intro i s _; rfl
  | cons a rest ih =>
    intro i s hlen
    simp only [List.length_cons] at hlen
    match i with
    | 0 => exact ih 1 _ (by omega)
    | 1 => exact ih 2 _ (by omega)
    | 2 => exact ih 3 _ (by omega)
    | 3 => exact ih 4 _ (by omega)
    | n+4 => omega

lemma resyncRequests_cons (o : OscOut) (outs : List OscOut) :
    resyncRequests (o :: outs)
      = (if o = OscOut.registerAuto then 1 else 0) + resyncRequests outs := by
  simp only [resyncRequests, List.filter_cons]
  split_ifs with h1 h2 h3 <;> simp_all <;> omega

lemma rebuildLoop_leds (n : Nat) : ∀ (i : Int) (acc : List LED),
    (rebuildLoop n i acc).1
      = acc ++ (List.range n).map (fun k : Nat => freshLed (i + (k : Int))) := by
  induction n with
  | zero => intro i acc; simp [rebuildLoop]
  | succ n ih =>
    intro i acc
    have hfun : (fun k : Nat => freshLed (i + 1 + (k : Int)))
        = (fun k : Nat => freshLed (i + ((k + 1 : Nat) : Int))) := by
      funext k
      congr 1
      push_cast
      ring
    rw [rebuildLoop, ih (i+1) (acc ++ [freshLed i]), List.range_succ_eq_map, hfun]
    simp [List.map_map, Function.comp, Nat.succ_eq_add_one]

lemma rebuildLoop_resync (n : Nat) : ∀ (i : Int) (acc : List LED),
    resyncRequests (rebuildLoop n i acc).2.1 = n := by
  induction n with
  | zero => intro i acc; rfl
  | succ n ih =>
    intro i acc
    rw [rebuildLoop]
    simp only [resyncRequests_cons, ih (i+1) (acc ++ [freshLed i])]
    simp
    omega

lemma growLoop_leds (n : Nat) : ∀ (i : Int) (acc : List LED),
    (growLoop n i acc).1
      = acc ++ (List.range n).map (fun k : Nat => freshLed (i + (k : Int))) := by
  induction n with
  | zero => intro i acc; simp [growLoop]
  | succ n ih =>
    intro i acc
    have hfun : (fun k : Nat => freshLed (i + 1 + (k : Int)))
        = (fun k : Nat => freshLed (i + ((k + 1 : Nat) : Int))) := by
      funext k
      congr 1
      push_cast
      ring
    rw [growLoop, ih (i+1) (acc ++ [freshLed i]), List.range_succ_eq_map, hfun]
    simp [List.map_map, Function.comp, Nat.succ_eq_add_one]

lemma growLoop_resync (n : Nat) : ∀ (i : Int) (acc : List LED),
    resyncRequests (growLoop n i acc).2.1 = n := by
  induction n with
  | zero => intro i acc; rfl
  | succ n ih =>
    intro i acc
    rw [growLoop]
    simp only [resyncRequests_cons, ih (i+1) (acc ++ [freshLed i])]
    simp
    omega

/-! Claim theorems. -/

/-- Claim C8: the pedal-slot-to-hardware mapping is the fixed
permutation of 0..11 that sends slots 0-8 to hardware values 1-9, slot
9 to 0 and the auxiliary slots 10 and 11 to themselves, and pedalIndex
and ledNumber are mutually inverse on 0..11. -/
theorem C8_pedal_mapping : ∀ n : Fin 12,
    ledNumber (pedalIndex ((n : Nat) : Int)) = ((n : Nat) : Int)
    ∧ pedalIndex (ledNumber ((n : Nat) : Int)) = ((n : Nat) : Int)
    ∧ ledNumber ((n : Nat) : Int)
      = (if ((n : Nat) : Int) ≤ 8 then ((n : Nat) : Int) + 1
         else if ((n : Nat) : Int) = 9 then 0 else ((n : Nat) : Int)) := by
  decide

/-- Claim C1 (the code, at the failing input of the claim): from a fresh
connect with countdown 5 and no inbound messages, the countdown equals
5 - n while n ≤ 5 and one probe is sent on every countdown-0 tick, but
the countdown then sticks at 0 forever: the countdown-0 branch of
timerCallback skips the decrement, so the countdown never goes below 0,
never reaches -6, and the link is never torn down (after 11 ticks both
ports are still bound and the countdown is 0, not -6). -/
theorem C1_countdown_stuck :
    (∀ n : Fin 6, (tickN noConnectEnv ((n : Nat)) freshConnected).heartbeat_
      = 5 - ((n : Nat) : Int))
    ∧ (tickN noConnectEnv 11 freshConnected).heartbeat_ = 0
    ∧ (tickN noConnectEnv 11 freshConnected).currentReceivePort_ = 9001
    ∧ (tickN noConnectEnv 11 freshConnected).currentSendPort_ = 9000
    ∧ (tick noConnectEnv (tickN noConnectEnv 10 freshConnected)).2.1
      = [OscOut.pingHeartbeat]
    ∧ (tick noConnectEnv (tickN noConnectEnv 4 freshConnected)).2.1 = [] := by
  decide

/-- Claim C6: an LED-update whose index argument lies outside
[0, ledCount) mutates no state and issues no hardware write. -/
theorem C6_out_of_range_drop (s : AppState) (idx : Int) (rest : List OSCArg)
    (h : idx < 0 ∨ s.ledCount_ ≤ idx) :
    handleLedMessage (OSCArg.int32 idx :: rest) s = (s, []) :=
  handleLed_out_of_range s idx rest h

theorem C6_witness :
    handleLedMessage [OSCArg.int32 5] cState5 = (cState5, []) :=
  C6_out_of_range_drop cState5 5 [] (by decide)

/-- Claim C10: when either UDP endpoint is unbound a tick leaves every
led untouched and issues no hardware write and no liveness probe; blink
animation advances (one stepLed per led) only on ticks where both
endpoints are bound. -/
theorem C10_link_down_frame (env : ConnectEnv) (s : AppState) :
    ((s.currentReceivePort_ < 0 ∨ s.currentSendPort_ < 0) →
      (tick env s).1.leds_ = s.leds_
      ∧ (tick env s).2.2 = []
      ∧ OscOut.pingHeartbeat ∉ (tick env s).2.1)
    ∧ (¬(s.currentReceivePort_ < 0 ∨ s.currentSendPort_ < 0) →
      WellIndexed s.leds_ →
      (tick env s).1.leds_ = s.leds_.map stepLed) := by
  constructor
  · intro h
    exact tick_unbound env s h
  · intro h hwi
    rw [(tick_connected env s h).1, animate_spec hwi]

theorem C10_witness :
    (tick noConnectEnv baseState).1.leds_ = baseState.leds_
    ∧ (tick noConnectEnv freshConnected).1.leds_
      = freshConnected.leds_.map stepLed :=
  ⟨((C10_link_down_frame noConnectEnv baseState).1 (by decide)).1,
   (C10_link_down_frame noConnectEnv freshConnected).2 (by decide)
     (by unfold WellIndexed; decide)⟩

/-- Claim C2 (counterexample): a recognized display-update message does
not reset the liveness countdown: with prior countdown 0 it stays 0. -/
theorem C2_counterexample :
    (handleDisplayMessage [OSCArg.int32 11]
      {freshConnected with heartbeat_ := 0}).1.heartbeat_ ≠ 5 := by
  decide

/-- Claim C2 (amended): a nonempty identity-probe-response with at most
four arguments, any nonempty heartbeat, and a well-formed in-range
LED-update reset the countdown to 5; a display-update never changes the
countdown (and dropped or malformed LED-updates leave it unchanged as
well). -/
theorem C2_amended (s : AppState) (args : List OSCArg) :
    (args ≠ [] → args.length ≤ 4 →
      (handlePingAckMessage args s).1.heartbeat_ = 5)
    ∧ (args ≠ [] → (handleHeartbeatMessage args s).1.heartbeat_ = 5)
    ∧ (∀ idx onv tv sv : Int, ∀ rest : List OSCArg,
        args = OSCArg.int32 idx :: OSCArg.int32 onv :: OSCArg.int32 tv
          :: OSCArg.int32 sv :: rest →
        0 ≤ idx → idx < s.ledCount_ →
        (handleLedMessage args s).1.heartbeat_ = 5)
    ∧ (handleDisplayMessage args s).1.heartbeat_ = s.heartbeat_ := by
  refine ⟨?_, ?_, ?_, ?_⟩
  · intro hne hlen
    have hp := pingAckLoop_no_early args 0 s (by omega)
    simp [handlePingAckMessage, hne, hp]
    split_ifs <;> simp
  · intro hne
    simp [handleHeartbeatMessage, hne]
  · intro idx onv tv sv rest harg h0 hlt
    subst harg
    simp only [handleLedMessage]
    rw [if_neg (show ¬(idx < 0 ∨ s.ledCount_ ≤ idx) by omega)]
    simp [nth?]
  · cases args with
    | nil => rfl
    | cons a0 rest => cases a0 <;> rfl

theorem C2_amended_witness :
    (handleLedMessage
      [OSCArg.int32 0, OSCArg.int32 1, OSCArg.int32 0, OSCArg.int32 2]
      cState5).1.heartbeat_ = 5
    ∧ (handleDisplayMessage [OSCArg.int32 0] cState5).1.heartbeat_
      = cState5.heartbeat_ :=
  ⟨(C2_amended cState5
      [OSCArg.int32 0, OSCArg.int32 1, OSCArg.int32 0, OSCArg.int32 2]).2.2.1
      0 1 0 2 [] rfl (by decide) (by decide),
   (C2_amended cState5 [OSCArg.int32 0]).2.2.2⟩

/-- Claim C4 (counterexample): a FastBlink led that has just toggled
(timer 1) does not toggle on the next tick, and a Blink led that has
just toggled (timer 3) is still untoggled after 3 ticks — against the
claimed periods of 1 and 3 ticks. -/
theorem C4_counterexample :
    (nth? (tickN noConnectEnv 1 cLedsFast).leds_ 0).map LED.on_ = some false
    ∧ (nth? (tickN noConnectEnv 3 cLedsBlink).leds_ 0).map LED.on_
      = some false := by
  decide

/-- Claim C4 (amended): on a tick with both ports bound every led takes
one stepLed; in steady state a Blink led (timer 3 after a toggle)
toggles exactly every 4 ticks, a FastBlink led (timer 1 after a toggle)
toggles exactly every 2 ticks, and a Dark or Light led is never touched
by the animation. -/
theorem C4_amended (env : ConnectEnv) (s : AppState)
    (hconn : ¬(s.currentReceivePort_ < 0 ∨ s.currentSendPort_ < 0))
    (hwi : WellIndexed s.leds_) :
    (tick env s).1.leds_ = s.leds_.map stepLed
    ∧ (∀ l : LED, l.state_ = Blink → l.timer_ = TIMER_BLINK →
        (∀ k : Nat, k ≤ 3 → (stepLedN k l).on_ = l.on_)
        ∧ stepLedN 4 l = {l with on_ := !l.on_})
    ∧ (∀ l : LED, l.state_ = FastBlink → l.timer_ = TIMER_FASTBLINK →
        (stepLedN 1 l).on_ = l.on_ ∧ stepLedN 2 l = {l with on_ := !l.on_})
    ∧ (∀ l : LED, l.state_ = Dark ∨ l.state_ = Light → stepLed l = l) := by
  refine ⟨?_, ?_, ?_, ?_⟩
  · rw [(tick_connected env s hconn).1, animate_spec hwi]
  · intro l h1 h2
    obtain ⟨i, b, t, st⟩ := l
    have h1x : st = Blink := h1
    have h2x : t = TIMER_BLINK := h2
    subst h1x
    subst h2x
    cases b
    · exact ⟨fun k hk => by interval_cases k <;> rfl, rfl⟩
    · exact ⟨fun k hk => by interval_cases k <;> rfl, rfl⟩
  · intro l h1 h2
    obtain ⟨i, b, t, st⟩ := l
    have h1x : st = FastBlink := h1
    have h2x : t = TIMER_FASTBLINK := h2
    subst h1x
    subst h2x
    cases b
    · exact ⟨rfl, rfl⟩
    · exact ⟨rfl, rfl⟩
  · intro l h1
    obtain ⟨i, b, t, st⟩ := l
    rcases h1 with h1x | h1x
    · have hx : st = Dark := h1x
      subst hx
      rfl
    · have hx : st = Light := h1x
      subst hx
      rfl

theorem C4_amended_witness :
    (tick noConnectEnv freshConnected).1.leds_
      = freshConnected.leds_.map stepLed
    ∧ stepLedN 4 (⟨0, false, 3, Blink⟩ : LED) = (⟨0, true, 3, Blink⟩ : LED) :=
  ⟨(C4_amended noConnectEnv freshConnected (by decide)
      (by unfold WellIndexed; decide)).1,
   ((C4_amended noConnectEnv freshConnected (by decide)
      (by unfold WellIndexed; decide)).2.1 ⟨0, false, 3, Blink⟩ rfl rfl).2⟩

/-- Claim C5 (counterexample): an LED-update with valid index, on-flag
and timer but a wrongly typed state argument is rejected only after the
on-flag and timer have been stored: the registry is mutated. -/
theorem C5_counterexample :
    (handleLedMessage
      [OSCArg.int32 0, OSCArg.int32 1, OSCArg.int32 7, OSCArg.string (r"x")]
      cState5).1.leds_ ≠ cState5.leds_ := by
  decide

/-- Claim C5 (amended): a malformed LED-update never issues a hardware
write, never touches the state_ field of any led and never touches any
led other than the in-range target; a payload failing at the first or
second argument leaves the registry entirely unchanged, but one failing
at the third (or fourth) argument has already stored the on-flag (and
the timer) into the target led. -/
theorem C5_amended (s : AppState) (idx onv tv : Int) (a0 a3 a4 : OSCArg)
    (rest : List OSCArg)
    (h0 : isInt32 a0 = false)
    (h3 : isInt32 a3 = false)
    (h4 : isInt32 a4 = false)
    (hlo : 0 ≤ idx) (hhi : idx < s.ledCount_) :
    handleLedMessage (a0 :: rest) s = (s, [])
    ∧ handleLedMessage (OSCArg.int32 idx :: a3 :: rest) s = (s, [])
    ∧ handleLedMessage (OSCArg.int32 idx :: OSCArg.int32 onv :: a4 :: rest) s
      = ({s with leds_ := modifyAt (fun l => {l with on_ := if onv = 0 then false else true}) idx.toNat s.leds_}, [])
    ∧ handleLedMessage (OSCArg.int32 idx :: OSCArg.int32 onv :: OSCArg.int32 tv :: a4 :: rest) s
      = ({s with leds_ := modifyAt (fun l => {l with timer_ := tv}) idx.toNat (modifyAt (fun l => {l with on_ := if onv = 0 then false else true}) idx.toNat s.leds_)}, []) := by
  have hrange : ¬(idx < 0 ∨ s.ledCount_ ≤ idx) := by omega
  refine ⟨?_, ?_, ?_, ?_⟩
  · cases a0 <;> simp_all [handleLedMessage, isInt32]
  · cases a3 <;> simp_all [handleLedMessage, isInt32, nth?, hrange]
  · cases a4 <;> simp_all [handleLedMessage, isInt32, nth?, hrange]
  · cases a4 <;> simp_all [handleLedMessage, isInt32, nth?, hrange]

theorem C5_amended_witness :
    handleLedMessage [OSCArg.int32 0, OSCArg.int32 1, OSCArg.blob] cState5
      = ({cState5 with leds_ := modifyAt (fun l => {l with on_ := if (1 : Int) = 0 then false else true}) (0 : Int).toNat cState5.leds_}, []) :=
  (C5_amended cState5 0 1 0 OSCArg.blob OSCArg.blob OSCArg.blob [] rfl rfl rfl
    (by decide) (by decide)).2.2.1

/-- Claim C3 (counterexample): a heartbeat carrying a changed engineId
does not have the same effect on the tracked state as a fresh
identity-probe-response: the probe response records the new identity,
the heartbeat handler keeps the old one. -/
theorem C3_counterexample :
    (handleHeartbeatMessage
      [OSCArg.string (r"h"), OSCArg.string (r"v"), OSCArg.int32 2, OSCArg.int32 7]
      cState3).1.engineId_
    ≠ (handlePingAckMessage
      [OSCArg.string (r"h"), OSCArg.string (r"v"), OSCArg.int32 2, OSCArg.int32 7]
      cState3).1.engineId_ := by
  decide

/-- Claim C3 (amended): a heartbeat with changed engineId and led count
K > 0 rebuilds the registry to exactly K fresh Dark leds with one
resync request each, sets ledCount to K and resets the countdown to 5,
exactly like a fresh identity-probe-response with the same fields — but
it does not record the new engineId (the tracked identity keeps its old
value), while the probe response does. -/
theorem C3_amended (s : AppState) (h v : String) (K uid : Int)
    (hK : 0 < K) (huid : uid ≠ s.engineId_) :
    (handleHeartbeatMessage [OSCArg.string h, OSCArg.string v, OSCArg.int32 K, OSCArg.int32 uid] s).1.leds_
      = (handlePingAckMessage [OSCArg.string h, OSCArg.string v, OSCArg.int32 K, OSCArg.int32 uid] s).1.leds_
    ∧ (handleHeartbeatMessage [OSCArg.string h, OSCArg.string v, OSCArg.int32 K, OSCArg.int32 uid] s).1.leds_
      = (List.range K.toNat).map (fun k : Nat => freshLed (k : Int))
    ∧ (handleHeartbeatMessage [OSCArg.string h, OSCArg.string v, OSCArg.int32 K, OSCArg.int32 uid] s).1.ledCount_ = K
    ∧ (handlePingAckMessage [OSCArg.string h, OSCArg.string v, OSCArg.int32 K, OSCArg.int32 uid] s).1.ledCount_ = K
    ∧ (handleHeartbeatMessage [OSCArg.string h, OSCArg.string v, OSCArg.int32 K, OSCArg.int32 uid] s).1.heartbeat_ = 5
    ∧ (handlePingAckMessage [OSCArg.string h, OSCArg.string v, OSCArg.int32 K, OSCArg.int32 uid] s).1.heartbeat_ = 5
    ∧ resyncRequests (handleHeartbeatMessage [OSCArg.string h, OSCArg.string v, OSCArg.int32 K, OSCArg.int32 uid] s).2.1 = K.toNat
    ∧ resyncRequests (handlePingAckMessage [OSCArg.string h, OSCArg.string v, OSCArg.int32 K, OSCArg.int32 uid] s).2.1 = K.toNat
    ∧ (handlePingAckMessage [OSCArg.string h, OSCArg.string v, OSCArg.int32 K, OSCArg.int32 uid] s).1.engineId_ = uid
    ∧ (handleHeartbeatMessage [OSCArg.string h, OSCArg.string v, OSCArg.int32 K, OSCArg.int32 uid] s).1.engineId_ = s.engineId_ := by
  have hpa : pingAckLoop
      [OSCArg.string h, OSCArg.string v, OSCArg.int32 K, OSCArg.int32 uid] 0 s
      = ({s with hostUrl_ := h, version_ := v, ledCount_ := K, engineId_ := uid}, false) := rfl
  have hhb : heartbeatLoop
      [OSCArg.string h, OSCArg.string v, OSCArg.int32 K, OSCArg.int32 uid] 0 s 0 s.engineId_
      = ({s with hostUrl_ := h, version_ := v}, K, uid) := rfl
  simp [handleHeartbeatMessage, handlePingAckMessage, hpa, hhb, huid, hK,
    rebuildLoop_leds, rebuildLoop_resync]

theorem C3_amended_witness :
    (handleHeartbeatMessage
      [OSCArg.string (r"h"), OSCArg.string (r"v"), OSCArg.int32 2, OSCArg.int32 7]
      cState3).1.leds_
      = (List.range (2 : Int).toNat).map (fun k : Nat => freshLed (k : Int))
    ∧ (handleHeartbeatMessage
      [OSCArg.string (r"h"), OSCArg.string (r"v"), OSCArg.int32 2, OSCArg.int32 7]
      cState3).1.engineId_ = cState3.engineId_ :=
  ⟨(C3_amended cState3 (r"h") (r"v") 2 7 (by decide) (by decide)).2.1,
   (C3_amended cState3 (r"h") (r"v") 2 7 (by decide) (by decide)).2.2.2.2.2.2.2.2.2⟩

/-- Claim C7: a heartbeat with unchanged engineId reporting a larger
led count N appends exactly N - M fresh Dark leds at indices M..N-1,
leaves the existing leds untouched, requests resync only for the new
slots, sets ledCount to N and resets the countdown. -/
theorem C7_grow_appends (s : AppState) (h v : String) (N : Int)
    (hM : (s.leds_.length : Int) = s.ledCount_) (hN : s.ledCount_ < N) :
    (handleHeartbeatMessage [OSCArg.string h, OSCArg.string v, OSCArg.int32 N, OSCArg.int32 s.engineId_] s).1.leds_
      = s.leds_ ++ (List.range (N - s.ledCount_).toNat).map (fun k : Nat => freshLed (s.ledCount_ + (k : Int)))
    ∧ (handleHeartbeatMessage [OSCArg.string h, OSCArg.string v, OSCArg.int32 N, OSCArg.int32 s.engineId_] s).1.ledCount_ = N
    ∧ ((handleHeartbeatMessage [OSCArg.string h, OSCArg.string v, OSCArg.int32 N, OSCArg.int32 s.engineId_] s).1.leds_.length : Int) = N
    ∧ resyncRequests (handleHeartbeatMessage [OSCArg.string h, OSCArg.string v, OSCArg.int32 N, OSCArg.int32 s.engineId_] s).2.1
      = (N - s.ledCount_).toNat
    ∧ (handleHeartbeatMessage [OSCArg.string h, OSCArg.string v, OSCArg.int32 N, OSCArg.int32 s.engineId_] s).1.heartbeat_ = 5 := by
  have hhb : heartbeatLoop
      [OSCArg.string h, OSCArg.string v, OSCArg.int32 N, OSCArg.int32 s.engineId_] 0 s 0 s.engineId_
      = ({s with hostUrl_ := h, version_ := v}, N, s.engineId_) := rfl
  have hcount : s.ledCount_ ≠ N := by omega
  simp [handleHeartbeatMessage, hhb, hcount, growLoop_leds, growLoop_resync]
  omega

theorem C7_witness :
    (handleHeartbeatMessage
      [OSCArg.string (r"h"), OSCArg.string (r"v"), OSCArg.int32 4, OSCArg.int32 cState5.engineId_]
      cState5).1.leds_
      = cState5.leds_ ++ (List.range ((4 : Int) - cState5.ledCount_).toNat).map (fun k : Nat => freshLed (cState5.ledCount_ + (k : Int))) :=
  (C7_grow_appends cState5 (r"h") (r"v") 4 (by decide) (by decide)).1

/-- Claim C9: a heartbeat with unchanged engineId reporting a smaller
led count N only lowers ledCount to N and removes nothing, so the
registry keeps all M leds; afterwards an LED-update aimed at a slot in
[N, M) is silently dropped even though that led still exists, and on a
connected tick every led of the registry, the orphaned ones included,
still animates (stepLed moves every Blink or FastBlink led). -/
theorem C9_shrink_gap (s : AppState) (h v : String) (N idx onv tv sv : Int)
    (env : ConnectEnv)
    (hM : (s.leds_.length : Int) = s.ledCount_)
    (hN : N < s.ledCount_)
    (hconn : ¬(s.currentReceivePort_ < 0 ∨ s.currentSendPort_ < 0))
    (hwi : WellIndexed s.leds_)
    (hlo : N ≤ idx) (hhi : idx < s.ledCount_) :
    (handleHeartbeatMessage [OSCArg.string h, OSCArg.string v, OSCArg.int32 N, OSCArg.int32 s.engineId_] s).1.ledCount_ = N
    ∧ (handleHeartbeatMessage [OSCArg.string h, OSCArg.string v, OSCArg.int32 N, OSCArg.int32 s.engineId_] s).1.leds_ = s.leds_
    ∧ handleLedMessage [OSCArg.int32 idx, OSCArg.int32 onv, OSCArg.int32 tv, OSCArg.int32 sv]
        (handleHeartbeatMessage [OSCArg.string h, OSCArg.string v, OSCArg.int32 N, OSCArg.int32 s.engineId_] s).1
      = ((handleHeartbeatMessage [OSCArg.string h, OSCArg.string v, OSCArg.int32 N, OSCArg.int32 s.engineId_] s).1, [])
    ∧ (tick env (handleHeartbeatMessage [OSCArg.string h, OSCArg.string v, OSCArg.int32 N, OSCArg.int32 s.engineId_] s).1).1.leds_
      = s.leds_.map stepLed
    ∧ (∀ l : LED, l.state_ = Blink ∨ l.state_ = FastBlink → stepLed l ≠ l) := by
  have hhb : heartbeatLoop
      [OSCArg.string h, OSCArg.string v, OSCArg.int32 N, OSCArg.int32 s.engineId_] 0 s 0 s.engineId_
      = ({s with hostUrl_ := h, version_ := v}, N, s.engineId_) := rfl
  have hz : (N - s.ledCount_).toNat = 0 := by omega
  have hcount : s.ledCount_ ≠ N := by omega
  have hled : (handleHeartbeatMessage [OSCArg.string h, OSCArg.string v, OSCArg.int32 N, OSCArg.int32 s.engineId_] s).1.ledCount_ = N := by
    simp [handleHeartbeatMessage, hhb, hcount, hz, growLoop]
  have hleds : (handleHeartbeatMessage [OSCArg.string h, OSCArg.string v, OSCArg.int32 N, OSCArg.int32 s.engineId_] s).1.leds_ = s.leds_ := by
    simp [handleHeartbeatMessage, hhb, hcount, hz, growLoop]
  have hrecv : (handleHeartbeatMessage [OSCArg.string h, OSCArg.string v, OSCArg.int32 N, OSCArg.int32 s.engineId_] s).1.currentReceivePort_ = s.currentReceivePort_ := by
    simp [handleHeartbeatMessage, hhb, hcount, hz, growLoop]
  have hsend : (handleHeartbeatMessage [OSCArg.string h, OSCArg.string v, OSCArg.int32 N, OSCArg.int32 s.engineId_] s).1.currentSendPort_ = s.currentSendPort_ := by
    simp [handleHeartbeatMessage, hhb, hcount, hz, growLoop]
  refine ⟨hled, hleds, ?_, ?_, ?_⟩
  · exact handleLed_out_of_range _ idx _ (Or.inr (by rw [hled]; exact hlo))
  · have hconn2 : ¬((handleHeartbeatMessage [OSCArg.string h, OSCArg.string v, OSCArg.int32 N, OSCArg.int32 s.engineId_] s).1.currentReceivePort_ < 0
        ∨ (handleHeartbeatMessage [OSCArg.string h, OSCArg.string v, OSCArg.int32 N, OSCArg.int32 s.engineId_] s).1.currentSendPort_ < 0) := by
      rw [hrecv, hsend]
      exact hconn
    rw [(tick_connected env _ hconn2).1, hleds, animate_spec hwi]
  · intro l hl heq
    by_cases ht : l.timer_ ≤ 0
    · have hon : (stepLed l).on_ = !l.on_ := by simp [stepLed, hl, ht]
      rw [heq] at hon
      simp at hon
    · have htm : (stepLed l).timer_ = l.timer_ - 1 := by simp [stepLed, hl, ht]
      rw [heq] at htm
      omega

theorem C9_witness :
    (handleHeartbeatMessage
      [OSCArg.string (r"h"), OSCArg.string (r"v"), OSCArg.int32 1, OSCArg.int32 cState9.engineId_]
      cState9).1.ledCount_ = 1
    ∧ (handleHeartbeatMessage
      [OSCArg.string (r"h"), OSCArg.string (r"v"), OSCArg.int32 1, OSCArg.int32 cState9.engineId_]
      cState9).1.leds_ = cState9.leds_ :=
  ⟨(C9_shrink_gap cState9 (r"h") (r"v") 1 2 0 0 0 noConnectEnv (by decide)
      (by decide) (by decide) (by unfold WellIndexed; decide) (by decide)
      (by decide)).1,
   (C9_shrink_gap cState9 (r"h") (r"v") 1 2 0 0 0 noConnectEnv (by decide)
      (by decide) (by decide) (by unfold WellIndexed; decide) (by decide)
      (by decide)).2.1⟩
